import Mathlib

/-!
Verification of the inertial-sensor management core and landing dispatcher
of the RallyRobotics/ardupilot repository, as a shallow embedding in Lean 4.

Sources embedded:
 * `libraries/AP_InertialSensor/AP_InertialSensor.h` — the manager class,
   whose inline accessor bodies are embedded verbatim; member functions whose
   bodies live in `AP_InertialSensor.cpp` (not part of the provided sources)
   are modelled from the specification and marked as such in their doc comment.
 * `libraries/AP_Landing/AP_Landing.cpp` — the landing dispatcher; its
   `verify_abort_landing` is embedded directly.

Machine integers are modelled as `Nat`/`Int`; `float` quantities as `Rat`
(the properties at stake are order/equality facts insensitive to rounding).
Fixed C arrays indexed by instance are modelled as total functions `Nat → α`,
with the instance-count fields bounding the meaningful indices.
-/

/-- `INS_MAX_INSTANCES` from `AP_InertialSensor_config.h` (not among the
provided source files). Its typical value is 3; none of the theorems below
except the concrete witnesses depend on the value, only on it being fixed. -/
def INS_MAX_INSTANCES : Nat := 3

/-- `AP_INERTIAL_SENSOR_ACCEL_TOT_MAX_OFFSET_CHANGE` (AP_InertialSensor.h line 6):
per-calibration bound on total accelerometer offset change, 4.0f. -/
def AP_INERTIAL_SENSOR_ACCEL_TOT_MAX_OFFSET_CHANGE : Rat := 4

/-- The `MIN` macro of AP_Math, used in the header's inline accessors. -/
def MIN (a b : Nat) : Nat := min a b

/-- `MIN` at float (here `Rat`) arguments, as used by `get_delta_time`. -/
def MINf (a b : Rat) : Rat := min a b

/-- `Vector3f` of AP_Math, components as `Rat`. -/
structure Vector3f where
  x : Rat
  y : Rat
  z : Rat
deriving DecidableEq, Repr

/-- Squared euclidean length of a `Vector3f` (`length_squared()` in AP_Math);
used to compare vector magnitudes against bounds without square roots. -/
def Vector3f.length_squared (v : Vector3f) : Rat :=
  v.x * v.x + v.y * v.y + v.z * v.z

/-- Componentwise difference of vectors (`operator-` of AP_Math). -/
def Vector3f.sub (a b : Vector3f) : Vector3f :=
  ⟨a.x - b.x, a.y - b.y, a.z - b.z⟩

/-- The zero vector. -/
def Vector3f.zero : Vector3f := ⟨0, 0, 0⟩

/-- State of the `AP_InertialSensor` manager class: the data members of the
class declaration in `AP_InertialSensor.h` that the verified operations touch.
C arrays `T field[INS_MAX_INSTANCES]` become functions `Nat → T`. -/
structure AP_InertialSensor where
  /-- `uint8_t _gyro_count` (line 507). -/
  _gyro_count : Nat
  /-- `uint8_t _accel_count` (line 508). -/
  _accel_count : Nat
  /-- `bool _gyro_healthy[INS_MAX_INSTANCES]` (line 700). -/
  _gyro_healthy : Nat → Bool
  /-- `bool _accel_healthy[INS_MAX_INSTANCES]` (line 701). -/
  _accel_healthy : Nat → Bool
  /-- `float _gyro_raw_sample_rates[INS_MAX_INSTANCES]` (line 613). -/
  _gyro_raw_sample_rates : Nat → Rat
  /-- `float _accel_raw_sample_rates[INS_MAX_INSTANCES]` (line 612). -/
  _accel_raw_sample_rates : Nat → Rat
  /-- `AP_Int32 _gyro_id` (per-instance persistent id parameter, line 567). -/
  _gyro_id : Nat → Nat
  /-- `AP_Int32 _accel_id` (per-instance persistent id parameter, line 566). -/
  _accel_id : Nat → Nat
  /-- `uint8_t _first_usable_gyro` (line 663). -/
  _first_usable_gyro : Nat
  /-- `uint8_t _first_usable_accel` (line 664). -/
  _first_usable_accel : Nat
  /-- `AP_Vector3f _accel_offset` (per-instance calibration offset, line 571). -/
  _accel_offset : Nat → Vector3f
  /-- `AP_Vector3f _accel_scale` (per-instance calibration scale, line 570). -/
  _accel_scale : Nat → Vector3f
  /-- `float _delta_time` (line 685): delta time of the last sample in s. -/
  _delta_time : Rat
  /-- `uint16_t _loop_rate` (line 512): selected loop rate in Hz. -/
  _loop_rate : Nat
  /-- `float _loop_delta_t` (line 513): `1/_loop_rate` in seconds. -/
  _loop_delta_t : Rat
  /-- `float _loop_delta_t_max` (line 514): cap applied by `get_delta_time`. -/
  _loop_delta_t_max : Rat
  /-- `uint32_t _accel_clip_count[INS_MAX_INSTANCES]` (line 707). -/
  _accel_clip_count : Nat → Nat
  /-- `uint8_t _gyro_wait_mask` (line 668): bitmask of gyro instances that
  `wait_for_sample()` waits on. -/
  _gyro_wait_mask : Nat
  /-- `bool _new_gyro_data[INS_MAX_INSTANCES]` (line 543): set when a backend
  posts a fresh raw sample since the last consumed cycle. -/
  _new_gyro_data : Nat → Bool
  /-- `uint32_t _gyro_error_count[INS_MAX_INSTANCES]` (line 704). -/
  _gyro_error_count : Nat → Nat
  /-- per-instance delta-velocity accumulation time,
  `float _delta_velocity_dt[INS_MAX_INSTANCES]` (line 519). -/
  _delta_velocity_dt : Nat → Rat
  /-- per-instance delta-angle accumulation time,
  `float _delta_angle_dt[INS_MAX_INSTANCES]` (line 548). -/
  _delta_angle_dt : Nat → Rat

namespace AP_InertialSensor

/-- A concrete all-zero manager state, used to instantiate universally
quantified theorems at a checkable point. -/
def init_state : AP_InertialSensor where
  _gyro_count := 0
  _accel_count := 0
  _gyro_healthy := fun _ => false
  _accel_healthy := fun _ => false
  _gyro_raw_sample_rates := fun _ => 0
  _accel_raw_sample_rates := fun _ => 0
  _gyro_id := fun _ => 0
  _accel_id := fun _ => 0
  _first_usable_gyro := 0
  _first_usable_accel := 0
  _accel_offset := fun _ => Vector3f.zero
  _accel_scale := fun _ => ⟨1, 1, 1⟩
  _delta_time := 0
  _loop_rate := 400
  _loop_delta_t := 1 / 400
  _loop_delta_t_max := 10 / 400
  _accel_clip_count := fun _ => 0
  _gyro_wait_mask := 0
  _new_gyro_data := fun _ => false
  _gyro_error_count := fun _ => 0
  _delta_velocity_dt := fun _ => 0
  _delta_angle_dt := fun _ => 0

/-- A concrete manager state with one registered gyro and one registered
accel, used to instantiate universally quantified theorems. -/
def one_imu_state : AP_InertialSensor :=
  { init_state with _gyro_count := 1, _accel_count := 1, _gyro_wait_mask := 1 }

/-! ### Inline accessors, embedded verbatim from the header -/

/-- Header line 137:
`bool get_gyro_health(uint8_t instance) const { return (instance<_gyro_count) ? _gyro_healthy[instance] : false; }` -/
def get_gyro_health (s : AP_InertialSensor) (inst : Nat) : Bool :=
  if inst < s._gyro_count then s._gyro_healthy inst else false

/-- Header line 147:
`bool get_accel_health(uint8_t instance) const { return (instance<_accel_count) ? _accel_healthy[instance] : false; }` -/
def get_accel_health (s : AP_InertialSensor) (inst : Nat) : Bool :=
  if inst < s._accel_count then s._accel_healthy inst else false

/-- Header line 141:
`uint8_t get_gyro_count(void) const { return MIN(INS_MAX_INSTANCES, _gyro_count); }` -/
def get_gyro_count (s : AP_InertialSensor) : Nat :=
  MIN INS_MAX_INSTANCES s._gyro_count

/-- Header line 151:
`uint8_t get_accel_count(void) const { return MIN(INS_MAX_INSTANCES, _accel_count); }` -/
def get_accel_count (s : AP_InertialSensor) : Nat :=
  MIN INS_MAX_INSTANCES s._accel_count

/-- Truncating conversion of a non-negative float quantity to `uint16_t`,
the `uint16_t(...)` cast used by the rate accessors. -/
def toU16 (r : Rat) : Nat := r.floor.toNat % 65536

/-- Header line 168:
`uint16_t get_raw_gyro_rate_hz(uint8_t instance) const { return _gyro_raw_sample_rates[_first_usable_gyro]; }`
— the body indexes `_first_usable_gyro`, not `instance`. -/
def get_raw_gyro_rate_hz (s : AP_InertialSensor) (inst : Nat) : Nat :=
  toU16 (s._gyro_raw_sample_rates s._first_usable_gyro)

/-- Header line 197:
`float get_delta_time() const { return MIN(_delta_time, _loop_delta_t_max); }` -/
def get_delta_time (s : AP_InertialSensor) : Rat :=
  MINf s._delta_time s._loop_delta_t_max

/-- Header line 175: `const Vector3f &get_accel_offsets(uint8_t i) const { return _accel_offset(i); }` -/
def get_accel_offsets (s : AP_InertialSensor) (i : Nat) : Vector3f :=
  s._accel_offset i

/-- Header line 179: `const Vector3f &get_accel_scale(uint8_t i) const { return _accel_scale(i); }` -/
def get_accel_scale (s : AP_InertialSensor) (i : Nat) : Vector3f :=
  s._accel_scale i

end AP_InertialSensor

/-! ## AP_Landing (`libraries/AP_Landing/AP_Landing.cpp`) -/

/-- `Location` of AP_Common: position with altitude in centimetres. Only
carried through `verify_abort_landing`, never inspected by it. -/
structure Location where
  lat : Int
  lng : Int
  alt : Int
deriving DecidableEq, Repr

namespace AP_Landing

/-- `TYPE_STANDARD_GLIDE_SLOPE` of the `Landing_Type` enum (value 0). -/
def TYPE_STANDARD_GLIDE_SLOPE : Int := 0

/-- `TYPE_DEEPSTALL` of the `Landing_Type` enum (value 1). -/
def TYPE_DEEPSTALL : Int := 1

/-- Outcome of one `verify_abort_landing` call: the by-reference outputs
(`next_WP_loc`, `throttle_suppressed`), the mission stop/resume side effects,
and the C++ return value. -/
structure VerifyAbortOutcome where
  next_WP_loc : Location
  throttle_suppressed : Bool
  mission_stopped : Bool
  mission_resumed : Bool
  retval : Bool
deriving DecidableEq, Repr

/-- `AP_Landing::verify_abort_landing` (AP_Landing.cpp lines 287-323).
The bodies of the per-type handlers (`type_slope_verify_abort_landing` in
AP_Landing_Slope.cpp, `deepstall.verify_abort_landing` in
AP_Landing_Deepstall.cpp) are not among the provided sources, so they are
taken as arbitrary transformers of `(next_WP_loc, throttle_suppressed)`,
as is the outcome of `restart_landing_sequence()` and the value sampled
from `adjusted_relative_altitude_cm_fn()`; the dispatch structure, the
abort-altitude block and the final `return false` follow the source. -/
def verify_abort_landing
    (landing_type : Int)
    (type_slope_handler deepstall_handler : Location → Location → Bool → Location × Bool)
    (prev_WP_loc : Location) (next_WP_loc : Location) (current_loc : Location)
    (auto_state_takeoff_altitude_rel_cm : Int)
    (throttle_suppressed : Bool)
    (adjusted_relative_altitude_cm : Int)
    (restart_landing_sequence_succeeds : Bool) : VerifyAbortOutcome :=
  -- switch (type) { ... }
  let afterSwitch : Location × Bool :=
    if landing_type = TYPE_STANDARD_GLIDE_SLOPE then
      type_slope_handler prev_WP_loc next_WP_loc throttle_suppressed
    else if landing_type = TYPE_DEEPSTALL then
      deepstall_handler prev_WP_loc next_WP_loc throttle_suppressed
    else
      (next_WP_loc, throttle_suppressed)
  -- if (adjusted_relative_altitude_cm_fn() > auto_state_takeoff_altitude_rel_cm)
  if adjusted_relative_altitude_cm > auto_state_takeoff_altitude_rel_cm then
    { next_WP_loc := current_loc
      throttle_suppressed := afterSwitch.2
      mission_stopped := true
      mission_resumed := restart_landing_sequence_succeeds
      -- make sure to always return false so it leaves the mission index alone
      retval := false }
  else
    { next_WP_loc := afterSwitch.1
      throttle_suppressed := afterSwitch.2
      mission_stopped := false
      mission_resumed := false
      retval := false }

end AP_Landing

namespace AP_InertialSensor

/-! ### Operations whose bodies live in `AP_InertialSensor.cpp`, which is not
among the provided source files; these are modelled from the specification. -/

/-- Modelled from the spec: the body of `AP_InertialSensor::register_gyro`
(declared at header line 84, defined in the absent `AP_InertialSensor.cpp`).
Spec 4.1: "assigns the lowest free instance slot, stores raw rate, and fails
(returns false, leaves instance unset) once the fixed instance capacity is
exhausted". Slots `0 .. _gyro_count-1` are occupied, so the lowest free slot
is `_gyro_count`. `inst` models the caller's by-reference output variable;
on failure it is returned unmodified. -/
def register_gyro (s : AP_InertialSensor) (inst : Nat)
    (raw_sample_rate_hz : Rat) (id : Nat) : AP_InertialSensor × Nat × Bool :=
  if s._gyro_count < INS_MAX_INSTANCES then
    let slot := s._gyro_count
    ({ s with
        _gyro_count := slot + 1
        _gyro_raw_sample_rates := fun j =>
          if j = slot then raw_sample_rate_hz else s._gyro_raw_sample_rates j
        _gyro_id := fun j => if j = slot then id else s._gyro_id j },
     slot, true)
  else
    (s, inst, false)

/-- Modelled from the spec: the body of `AP_InertialSensor::register_accel`
(declared at header line 85, defined in the absent `AP_InertialSensor.cpp`);
same contract as `register_gyro` over the accel instance table. -/
def register_accel (s : AP_InertialSensor) (inst : Nat)
    (raw_sample_rate_hz : Rat) (id : Nat) : AP_InertialSensor × Nat × Bool :=
  if s._accel_count < INS_MAX_INSTANCES then
    let slot := s._accel_count
    ({ s with
        _accel_count := slot + 1
        _accel_raw_sample_rates := fun j =>
          if j = slot then raw_sample_rate_hz else s._accel_raw_sample_rates j
        _accel_id := fun j => if j = slot then id else s._accel_id j },
     slot, true)
  else
    (s, inst, false)

/-- All instances selected by the 8-bit wait mask (`uint8_t _gyro_wait_mask`)
are ready according to `ready`. -/
def all_masked_ready (mask : Nat) (ready : Nat → Bool) : Bool :=
  (List.range 8).all fun i => !mask.testBit i || ready i

/-- The bounded polling loop inside `wait_for_sample()`: starting at poll
tick `t` with `fuel` ticks left until the deadline, return the first tick at
which every wait-mask instance has posted a fresh sample, or the deadline
tick when the fuel runs out. `new_sample t i` says whether instance `i` has
posted a new raw sample by tick `t`. -/
def wait_poll (mask : Nat) (new_sample : Nat → Nat → Bool) : Nat → Nat → Nat
  | 0, t => t
  | fuel+1, t =>
      if all_masked_ready mask (new_sample t) then t
      else wait_poll mask new_sample fuel (t+1)

/-- The `wait_for_sample()` deadline in poll ticks (microseconds):
`1/loop_rate` plus the allowed jitter, per spec 4.2. -/
def wait_deadline_usec (s : AP_InertialSensor) (max_jitter_usec : Nat) : Nat :=
  1000000 / s._loop_rate + max_jitter_usec

/-- Modelled from the spec: the body of `AP_InertialSensor::wait_for_sample`
(declared at header line 207, defined in the absent `AP_InertialSensor.cpp`).
Spec 4.2/5: polls with bounded sleep until every instance in the active
wait-mask has posted at least one new raw sample since the last cycle, or
until the `1/loop_rate + max_jitter` deadline elapses; on return, wait-mask
instances that still have no sample are marked unhealthy and the cycle
proceeds with the instances that are ready. Returns the post-state and the
tick at which the wait released. -/
def wait_for_sample (s : AP_InertialSensor) (new_sample : Nat → Nat → Bool)
    (max_jitter_usec : Nat) : AP_InertialSensor × Nat :=
  let deadline := wait_deadline_usec s max_jitter_usec
  let t_ret := wait_poll s._gyro_wait_mask new_sample deadline 0
  ({ s with
      _gyro_healthy := fun i =>
        if s._gyro_wait_mask.testBit i && !(new_sample t_ret i) then false
        else s._gyro_healthy i
      _new_gyro_data := fun i => new_sample t_ret i },
   t_ret)

/-- Modelled from the spec: the body of
`AP_InertialSensor::_acal_save_calibrations` (declared at header line 730,
defined in the absent `AP_InertialSensor_AccelCal` part of
`AP_InertialSensor.cpp`). Spec 4.4/8: a calibration result for accel
instance `i` is rejected — reported as failure with the stored calibration
left untouched — when its offset change from the previously stored offset
exceeds `AP_INERTIAL_SENSOR_ACCEL_TOT_MAX_OFFSET_CHANGE`; otherwise offset
and scale are stored. Magnitudes are compared squared to stay in `Rat`. -/
def _acal_save_calibrations (s : AP_InertialSensor) (i : Nat)
    (new_offset new_scale : Vector3f) : AP_InertialSensor × Bool :=
  if AP_INERTIAL_SENSOR_ACCEL_TOT_MAX_OFFSET_CHANGE ^ 2 <
      ((new_offset.sub (s._accel_offset i)).length_squared) then
    (s, false)
  else
    ({ s with
        _accel_offset := fun j => if j = i then new_offset else s._accel_offset j
        _accel_scale := fun j => if j = i then new_scale else s._accel_scale j },
     true)

/-- Modelled from the spec: the body of `AP_InertialSensor::update` (declared
at header line 204, defined in the absent `AP_InertialSensor.cpp`). Spec 4.2:
after a completed wait, `update()` drains the newest raw sample per instance,
publishes each instance's accumulated delta-angle/delta-velocity time as the
snapshot's per-instance deltatime, and records the elapsed time since the
previous update as `_delta_time` (read back through `get_delta_time`, whose
`MIN` cap is embedded verbatim from the header). -/
def update (s : AP_InertialSensor) (acc_vel_dt acc_ang_dt : Nat → Rat)
    (elapsed : Rat) : AP_InertialSensor :=
  { s with
      _delta_velocity_dt := acc_vel_dt
      _delta_angle_dt := acc_ang_dt
      _delta_time := elapsed }

/-- One backend sample-cycle event for a single sensor instance. -/
inductive SampleEvent
  | valid
  | missed
deriving DecidableEq, Repr

/-- Per-instance health tracking state: the `_gyro_healthy[i]` /
`_accel_healthy[i]` flag together with the instance's recent error count
(`_gyro_error_count[i]` within the rolling window). -/
structure HealthState where
  healthy : Bool
  recent_errors : Nat
deriving DecidableEq, Repr

/-- Modelled from the spec: the per-cycle health update applied by the
backend code in the absent `AP_InertialSensor.cpp` / backend sources.
Spec 4.5: "Health per instance = (recent error count below threshold) AND
(fresh sample within timeout)"; spec 4.2: "health recovers automatically once
errors stop and a fresh valid sample arrives". A valid sample ends the error
window and restores health; a missed sample counts one error and leaves the
instance healthy only while the count stays below the threshold. -/
def health_step (threshold : Nat) (st : HealthState) : SampleEvent → HealthState
  | .valid => { healthy := true, recent_errors := 0 }
  | .missed =>
      let e := st.recent_errors + 1
      { healthy := decide (e < threshold), recent_errors := e }

/-- Fold `health_step` over a cycle-by-cycle event history. -/
def health_run (threshold : Nat) (st : HealthState)
    (evs : List SampleEvent) : HealthState :=
  evs.foldl (health_step threshold) st

/-- A raw accel sample saturates the sensor's measurable range when some
axis exceeds the clip limit. -/
def saturates (clip_limit : Rat) (accel : Vector3f) : Bool :=
  decide (clip_limit < abs accel.x) || decide (clip_limit < abs accel.y) ||
    decide (clip_limit < abs accel.z)

/-- Modelled from the spec: the clipping part of
`AP_InertialSensor::calc_vibration_and_clipping` (declared at header line
253, defined in the absent `AP_InertialSensor.cpp`). Spec 4.5: "clip count
increments whenever a raw sample saturates the sensor's measurable range,
decaying only on explicit read-and-clear" — a non-saturating sample leaves
the counter unchanged. -/
def calc_vibration_and_clipping (clip_limit : Rat) (s : AP_InertialSensor)
    (inst : Nat) (accel : Vector3f) : AP_InertialSensor :=
  if saturates clip_limit accel then
    { s with
        _accel_clip_count := fun j =>
          if j = inst then s._accel_clip_count inst + 1
          else s._accel_clip_count j }
  else s

/-- Modelled from the spec: the body of
`AP_InertialSensor::get_accel_clip_count` (declared at header line 260 as
"retrieve and clear accelerometer clipping count", defined in the absent
`AP_InertialSensor.cpp`): returns the accumulated count for the instance and
resets it to 0. -/
def get_accel_clip_count (s : AP_InertialSensor) (inst : Nat) :
    AP_InertialSensor × Nat :=
  ({ s with
      _accel_clip_count := fun j => if j = inst then 0 else s._accel_clip_count j },
   s._accel_clip_count inst)

/-- Feed a list of raw accel samples for one instance through
`calc_vibration_and_clipping`. -/
def process_samples (clip_limit : Rat) (s : AP_InertialSensor) (inst : Nat)
    (samples : List Vector3f) : AP_InertialSensor :=
  samples.foldl (fun st a => calc_vibration_and_clipping clip_limit st inst a) s

/-- The operations the manager performs at runtime, after `detect_backends()`
has completed. Modelled from the spec (the dispatch lives in the absent
`AP_InertialSensor.cpp`): per spec 4.1 and 3, registration happens only
during detection, so the runtime vocabulary is the sample cycle
(`wait_for_sample`/`update`), health and clip accounting, and calibration
saves. -/
inductive RuntimeOp
  | waitCycle (new_sample : Nat → Nat → Bool) (max_jitter_usec : Nat)
  | doUpdate (acc_vel_dt acc_ang_dt : Nat → Rat) (elapsed : Rat)
  | clipSample (clip_limit : Rat) (inst : Nat) (accel : Vector3f)
  | clipRead (inst : Nat)
  | calSave (inst : Nat) (new_offset new_scale : Vector3f)

/-- Apply one runtime operation to the manager state. -/
def runtime_step (s : AP_InertialSensor) : RuntimeOp → AP_InertialSensor
  | .waitCycle f j => (wait_for_sample s f j).1
  | .doUpdate av aa e => update s av aa e
  | .clipSample cl i a => calc_vibration_and_clipping cl s i a
  | .clipRead i => (get_accel_clip_count s i).1
  | .calSave i o c => (_acal_save_calibrations s i o c).1

/-- Run a sequence of runtime operations. -/
def runtime_run (s : AP_InertialSensor) (ops : List RuntimeOp) : AP_InertialSensor :=
  ops.foldl runtime_step s

/-- Modelled from the spec: one full control-loop cycle,
`wait_for_sample(); update()` (spec 4.2; both bodies live in the absent
`AP_InertialSensor.cpp`). The wait barrier re-arms at the previous cycle's
release, so the tick at which `wait_for_sample` releases is the wall-clock
time elapsed since the previous drain, in microseconds. `update()` then
drains each registered instance's accumulator, publishing that elapsed time
(in seconds) as the snapshot's per-instance deltatime — instances beyond the
registered count are not drained — and records it as `_delta_time`. -/
def sample_cycle (s : AP_InertialSensor) (new_sample : Nat → Nat → Bool)
    (max_jitter_usec : Nat) : AP_InertialSensor :=
  let w := wait_for_sample s new_sample max_jitter_usec
  let elapsed : Rat := (w.2 : Rat) / 1000000
  update w.1
    (fun i => if i < s._accel_count then elapsed else s._delta_velocity_dt i)
    (fun i => if i < s._gyro_count then elapsed else s._delta_angle_dt i)
    elapsed

end AP_InertialSensor

/-! ## Theorems -/

/-- C8: for every instance index at or beyond the registered instance count,
`get_gyro_health` and `get_accel_health` return `false` — an unregistered or
out-of-range instance is always reported unhealthy, and the health arrays are
never indexed there (the embedded bodies are the header's inline ternaries). -/
theorem get_health_out_of_range_false (s : AP_InertialSensor) (i : Nat)
    (hg : s._gyro_count ≤ i) (ha : s._accel_count ≤ i) :
    AP_InertialSensor.get_gyro_health s i = false ∧
      AP_InertialSensor.get_accel_health s i = false := by
  constructor
  · simp [AP_InertialSensor.get_gyro_health, Nat.not_lt.mpr hg]
  · simp [AP_InertialSensor.get_accel_health, Nat.not_lt.mpr ha]

/-- Witness for C8 at a concrete state: the all-zero manager state with
instance index 5. -/
theorem get_health_out_of_range_false_witness :
    AP_InertialSensor.get_gyro_health AP_InertialSensor.init_state 5 = false ∧
      AP_InertialSensor.get_accel_health AP_InertialSensor.init_state 5 = false :=
  get_health_out_of_range_false AP_InertialSensor.init_state 5 (by decide) (by decide)

/-- C9: `get_raw_gyro_rate_hz(instance)` ignores its `instance` argument: for
every state and every pair of instance indices it returns the raw sample rate
of `_first_usable_gyro`, so any two instance arguments give the same value. -/
theorem get_raw_gyro_rate_hz_ignores_instance (s : AP_InertialSensor) (i j : Nat) :
    AP_InertialSensor.get_raw_gyro_rate_hz s i =
        AP_InertialSensor.toU16 (s._gyro_raw_sample_rates s._first_usable_gyro) ∧
      AP_InertialSensor.get_raw_gyro_rate_hz s i =
        AP_InertialSensor.get_raw_gyro_rate_hz s j :=
  ⟨rfl, rfl⟩

/-- C10: `AP_Landing::verify_abort_landing` returns `false` for every input —
every landing type, per-type handler behavior, location, altitude and
throttle state, whether or not the abort altitude was reached and the landing
sequence restarted — so executing it never advances the mission index. -/
theorem verify_abort_landing_always_false (landing_type : Int)
    (type_slope_handler deepstall_handler : Location → Location → Bool → Location × Bool)
    (prev_WP_loc next_WP_loc current_loc : Location)
    (auto_state_takeoff_altitude_rel_cm : Int) (throttle_suppressed : Bool)
    (adjusted_relative_altitude_cm : Int) (restart_landing_sequence_succeeds : Bool) :
    (AP_Landing.verify_abort_landing landing_type type_slope_handler
        deepstall_handler prev_WP_loc next_WP_loc current_loc
        auto_state_takeoff_altitude_rel_cm throttle_suppressed
        adjusted_relative_altitude_cm restart_landing_sequence_succeeds).retval
      = false := by
  unfold AP_Landing.verify_abort_landing
  repeat' split
  all_goals rfl

/-- C2: registration contract. While capacity remains, `register_gyro` /
`register_accel` succeed, return the lowest free slot (`_gyro_count` /
`_accel_count`, since slots below the count are the already-assigned ones),
store the given raw sample rate at that slot and grow the count by one; once
the fixed capacity `INS_MAX_INSTANCES` is exhausted they return `false`,
leave the whole state unchanged and return the caller's instance output
variable unmodified. Quantifying over every reachable state `s` covers every
sequence of registration calls. -/
theorem register_lowest_free_slot (s : AP_InertialSensor) (inst : Nat)
    (rate : Rat) (id : Nat) :
    (s._gyro_count < INS_MAX_INSTANCES →
      (AP_InertialSensor.register_gyro s inst rate id).2.2 = true ∧
      (AP_InertialSensor.register_gyro s inst rate id).2.1 = s._gyro_count ∧
      (AP_InertialSensor.register_gyro s inst rate id).1._gyro_raw_sample_rates
          s._gyro_count = rate ∧
      (AP_InertialSensor.register_gyro s inst rate id).1._gyro_count
          = s._gyro_count + 1) ∧
    (INS_MAX_INSTANCES ≤ s._gyro_count →
      AP_InertialSensor.register_gyro s inst rate id = (s, inst, false)) ∧
    (s._accel_count < INS_MAX_INSTANCES →
      (AP_InertialSensor.register_accel s inst rate id).2.2 = true ∧
      (AP_InertialSensor.register_accel s inst rate id).2.1 = s._accel_count ∧
      (AP_InertialSensor.register_accel s inst rate id).1._accel_raw_sample_rates
          s._accel_count = rate ∧
      (AP_InertialSensor.register_accel s inst rate id).1._accel_count
          = s._accel_count + 1) ∧
    (INS_MAX_INSTANCES ≤ s._accel_count →
      AP_InertialSensor.register_accel s inst rate id = (s, inst, false)) := by
  refine ⟨fun h => ?_, fun h => ?_, fun h => ?_, fun h => ?_⟩
  · simp [AP_InertialSensor.register_gyro, h]
  · simp [AP_InertialSensor.register_gyro, Nat.not_lt.mpr h]
  · simp [AP_InertialSensor.register_accel, h]
  · simp [AP_InertialSensor.register_accel, Nat.not_lt.mpr h]

/-- Witness for C2: from the empty state the first `register_gyro` succeeds
with slot 0; from a state with all `INS_MAX_INSTANCES` slots taken the call
fails and returns state and instance variable (here 7) unchanged. -/
theorem register_lowest_free_slot_witness :
    (AP_InertialSensor.register_gyro AP_InertialSensor.init_state 7 1000 42).2.1 = 0 ∧
    (AP_InertialSensor.register_gyro AP_InertialSensor.init_state 7 1000 42).2.2 = true ∧
    AP_InertialSensor.register_gyro
        { AP_InertialSensor.init_state with _gyro_count := 3, _accel_count := 3 }
        7 1000 42
      = ({ AP_InertialSensor.init_state with _gyro_count := 3, _accel_count := 3 },
         7, false) := by
  refine ⟨?_, ?_, ?_⟩
  · exact ((register_lowest_free_slot AP_InertialSensor.init_state 7 1000 42).1
      (by decide)).2.1
  · exact ((register_lowest_free_slot AP_InertialSensor.init_state 7 1000 42).1
      (by decide)).1
  · exact (register_lowest_free_slot
      { AP_InertialSensor.init_state with _gyro_count := 3, _accel_count := 3 }
      7 1000 42).2.1 (by decide)

/-- C3: a calibration result whose offset differs from the previously stored
offset by more than `AP_INERTIAL_SENSOR_ACCEL_TOT_MAX_OFFSET_CHANGE` is
rejected (`false`), and the prior calibration state is left fully intact:
after the rejection, `get_accel_offsets` and `get_accel_scale` return exactly
the values they returned before, for every instance. -/
theorem acal_reject_preserves_calibration (s : AP_InertialSensor) (i : Nat)
    (new_offset new_scale : Vector3f)
    (h : AP_INERTIAL_SENSOR_ACCEL_TOT_MAX_OFFSET_CHANGE ^ 2 <
      (new_offset.sub (s._accel_offset i)).length_squared) :
    (AP_InertialSensor._acal_save_calibrations s i new_offset new_scale).2 = false ∧
    ∀ j, AP_InertialSensor.get_accel_offsets
            (AP_InertialSensor._acal_save_calibrations s i new_offset new_scale).1 j
          = AP_InertialSensor.get_accel_offsets s j ∧
        AP_InertialSensor.get_accel_scale
            (AP_InertialSensor._acal_save_calibrations s i new_offset new_scale).1 j
          = AP_InertialSensor.get_accel_scale s j := by
  simp [AP_InertialSensor._acal_save_calibrations, h,
    AP_InertialSensor.get_accel_offsets, AP_InertialSensor.get_accel_scale]

/-- Witness for C3: from the zero-offset state, a result with offset
`(5,0,0)` (change magnitude 5 > 4) is rejected and the stored offset and
scale of instance 0 read back unchanged. -/
theorem acal_reject_preserves_calibration_witness :
    (AP_InertialSensor._acal_save_calibrations AP_InertialSensor.init_state 0
        ⟨5, 0, 0⟩ ⟨1, 1, 1⟩).2 = false ∧
    AP_InertialSensor.get_accel_offsets
        (AP_InertialSensor._acal_save_calibrations AP_InertialSensor.init_state 0
          ⟨5, 0, 0⟩ ⟨1, 1, 1⟩).1 0
      = AP_InertialSensor.get_accel_offsets AP_InertialSensor.init_state 0 ∧
    AP_InertialSensor.get_accel_scale
        (AP_InertialSensor._acal_save_calibrations AP_InertialSensor.init_state 0
          ⟨5, 0, 0⟩ ⟨1, 1, 1⟩).1 0
      = AP_InertialSensor.get_accel_scale AP_InertialSensor.init_state 0 := by
  have h := acal_reject_preserves_calibration AP_InertialSensor.init_state 0
    ⟨5, 0, 0⟩ ⟨1, 1, 1⟩ (by
      norm_num [AP_INERTIAL_SENSOR_ACCEL_TOT_MAX_OFFSET_CHANGE,
        Vector3f.sub, Vector3f.length_squared, Vector3f.zero,
        AP_InertialSensor.init_state])
  exact ⟨h.1, (h.2 0).1, (h.2 0).2⟩

/-- Helper: effect of a run of consecutive missed-sample cycles on the health
state — the error count grows by the run length and the healthy flag compares
it against the threshold (unchanged when the run is empty). -/
theorem health_run_missed (threshold : Nat) :
    ∀ (k : Nat) (b : Bool) (e : Nat),
      AP_InertialSensor.health_run threshold ⟨b, e⟩
          (List.replicate k AP_InertialSensor.SampleEvent.missed)
        = ⟨if k = 0 then b else decide (e + k < threshold), e + k⟩ := by
  intro k
  induction k with
  | zero => intro b e; simp [AP_InertialSensor.health_run]
  | succ n ih =>
      intro b e
      rw [List.replicate_succ]
      have hstep : AP_InertialSensor.health_run threshold ⟨b, e⟩
          (AP_InertialSensor.SampleEvent.missed ::
            List.replicate n AP_InertialSensor.SampleEvent.missed)
          = AP_InertialSensor.health_run threshold
              ⟨decide (e + 1 < threshold), e + 1⟩
              (List.replicate n AP_InertialSensor.SampleEvent.missed) := rfl
      rw [hstep, ih]
      have harith : e + 1 + n = e + (n + 1) := by omega
      cases n with
      | zero => simp
      | succ m =>
          simp only [Nat.succ_ne_zero, if_false, harith]

/-- C5: sensor health never latches. Starting healthy with a clear error
window, an instance that stops delivering samples is unhealthy exactly when
the configured error-count threshold is crossed (after `k` missed cycles the
flag is `k < threshold`, so it flips precisely at the threshold); and from
every state whatsoever, a single fresh valid sample — no other operation —
restores the healthy flag to `true` and clears the error window. -/
theorem health_threshold_and_recovery (threshold k : Nat)
    (st : AP_InertialSensor.HealthState) (hpos : 0 < threshold) :
    (AP_InertialSensor.health_run threshold ⟨true, 0⟩
        (List.replicate k AP_InertialSensor.SampleEvent.missed)).healthy
      = decide (k < threshold) ∧
    AP_InertialSensor.health_step threshold st AP_InertialSensor.SampleEvent.valid
      = ⟨true, 0⟩ := by
  constructor
  · rw [health_run_missed]
    cases k with
    | zero => simp [hpos]
    | succ n => simp
  · rfl

/-- Witness for C5: with threshold 2, three missed cycles leave the instance
unhealthy, and one valid sample recovers even a deeply errored state. -/
theorem health_threshold_and_recovery_witness :
    (AP_InertialSensor.health_run 2 ⟨true, 0⟩
        (List.replicate 3 AP_InertialSensor.SampleEvent.missed)).healthy = false ∧
    AP_InertialSensor.health_step 2 ⟨false, 7⟩ AP_InertialSensor.SampleEvent.valid
      = ⟨true, 0⟩ := by
  have h := health_threshold_and_recovery 2 3 ⟨false, 7⟩ (by decide)
  exact ⟨h.1, h.2⟩

/-- Helper: one saturating sample bumps the instance's clip counter. -/
theorem clip_step_count (clip_limit : Rat) (s : AP_InertialSensor) (inst : Nat)
    (accel : Vector3f) (hsat : AP_InertialSensor.saturates clip_limit accel = true) :
    (AP_InertialSensor.calc_vibration_and_clipping clip_limit s inst accel)._accel_clip_count
      = fun j => if j = inst then s._accel_clip_count inst + 1
                 else s._accel_clip_count j := by
  simp [AP_InertialSensor.calc_vibration_and_clipping, hsat]

/-- Helper: `n` saturating samples bump the instance's clip counter by `n`. -/
theorem process_samples_replicate_count (clip_limit : Rat) (accel : Vector3f)
    (inst : Nat)
    (hsat : AP_InertialSensor.saturates clip_limit accel = true) :
    ∀ (n : Nat) (s : AP_InertialSensor),
      (AP_InertialSensor.process_samples clip_limit s inst
          (List.replicate n accel))._accel_clip_count inst
        = s._accel_clip_count inst + n := by
  intro n
  induction n with
  | zero => intro s; simp [AP_InertialSensor.process_samples]
  | succ m ih =>
      intro s
      rw [List.replicate_succ]
      have hstep : AP_InertialSensor.process_samples clip_limit s inst
          (accel :: List.replicate m accel)
          = AP_InertialSensor.process_samples clip_limit
              (AP_InertialSensor.calc_vibration_and_clipping clip_limit s inst accel)
              inst (List.replicate m accel) := rfl
      rw [hstep, ih, clip_step_count clip_limit s inst accel hsat]
      simp
      omega

/-- C6: processing `N` raw accelerometer samples that saturate the sensor's
measurable range increments the instance's clip count by exactly `N`; a
non-saturating sample changes nothing at all, so the count decreases only on
the explicit read-and-clear `get_accel_clip_count`, which returns the
accumulated count and resets it to 0. -/
theorem clip_count_exact (clip_limit : Rat) (s : AP_InertialSensor) (inst : Nat)
    (accel nonsat_accel : Vector3f) (n : Nat)
    (hsat : AP_InertialSensor.saturates clip_limit accel = true)
    (hnon : AP_InertialSensor.saturates clip_limit nonsat_accel = false) :
    (AP_InertialSensor.process_samples clip_limit s inst
        (List.replicate n accel))._accel_clip_count inst
      = s._accel_clip_count inst + n ∧
    (AP_InertialSensor.get_accel_clip_count
        (AP_InertialSensor.process_samples clip_limit s inst
          (List.replicate n accel)) inst).2
      = s._accel_clip_count inst + n ∧
    (AP_InertialSensor.get_accel_clip_count
        (AP_InertialSensor.process_samples clip_limit s inst
          (List.replicate n accel)) inst).1._accel_clip_count inst = 0 ∧
    AP_InertialSensor.calc_vibration_and_clipping clip_limit s inst nonsat_accel
      = s := by
  refine ⟨process_samples_replicate_count clip_limit accel inst hsat n s, ?_, ?_, ?_⟩
  · show (AP_InertialSensor.process_samples clip_limit s inst
        (List.replicate n accel))._accel_clip_count inst = _
    exact process_samples_replicate_count clip_limit accel inst hsat n s
  · simp [AP_InertialSensor.get_accel_clip_count]
  · simp [AP_InertialSensor.calc_vibration_and_clipping, hnon]

/-- Witness for C6: with clip limit 15, three samples at x = 16 take the
counter of instance 0 from 0 to 3; the read-and-clear returns 3 and resets to
0; a sample at x = 1 leaves the state unchanged. -/
theorem clip_count_exact_witness :
    (AP_InertialSensor.get_accel_clip_count
        (AP_InertialSensor.process_samples 15 AP_InertialSensor.init_state 0
          (List.replicate 3 ⟨16, 0, 0⟩)) 0).2 = 3 ∧
    (AP_InertialSensor.get_accel_clip_count
        (AP_InertialSensor.process_samples 15 AP_InertialSensor.init_state 0
          (List.replicate 3 ⟨16, 0, 0⟩)) 0).1._accel_clip_count 0 = 0 ∧
    AP_InertialSensor.calc_vibration_and_clipping 15 AP_InertialSensor.init_state 0
        ⟨1, 0, 0⟩ = AP_InertialSensor.init_state := by
  have h := clip_count_exact 15 AP_InertialSensor.init_state 0 ⟨16, 0, 0⟩ ⟨1, 0, 0⟩ 3
    (by norm_num [AP_InertialSensor.saturates])
    (by norm_num [AP_InertialSensor.saturates])
  exact ⟨h.2.1, h.2.2.1, h.2.2.2⟩

/-- Helper: the polling loop never runs past its fuel (the deadline). -/
theorem wait_poll_le (mask : Nat) (f : Nat → Nat → Bool) :
    ∀ (fuel t : Nat), AP_InertialSensor.wait_poll mask f fuel t ≤ t + fuel := by
  intro fuel
  induction fuel with
  | zero => intro t; simp [AP_InertialSensor.wait_poll]
  | succ n ih =>
      intro t
      simp only [AP_InertialSensor.wait_poll]
      split
      · omega
      · have h := ih (t + 1)
        omega

/-- Helper: if all wait-mask instances are ready at tick `t0` within the
remaining fuel, the polling loop releases no later than `t0`. -/
theorem wait_poll_le_ready (mask : Nat) (f : Nat → Nat → Bool) :
    ∀ (fuel t t0 : Nat), t ≤ t0 → t0 ≤ t + fuel →
      AP_InertialSensor.all_masked_ready mask (f t0) = true →
      AP_InertialSensor.wait_poll mask f fuel t ≤ t0 := by
  intro fuel
  induction fuel with
  | zero =>
      intro t t0 h1 h2 _
      simp only [AP_InertialSensor.wait_poll]
      omega
  | succ n ih =>
      intro t t0 h1 h2 hready
      simp only [AP_InertialSensor.wait_poll]
      split
      · exact h1
      · rename_i hnot
        have hne : t ≠ t0 := fun he => hnot (by rw [he]; exact hready)
        exact ih (t + 1) t0 (by omega) (by omega) hready

/-- Helper: after `wait_for_sample`, an instance's health flag is the source
health unless the instance is in the wait mask and still has no sample. -/
theorem wait_for_sample_health (s : AP_InertialSensor) (f : Nat → Nat → Bool)
    (j i : Nat) :
    (AP_InertialSensor.wait_for_sample s f j).1._gyro_healthy i
      = if s._gyro_wait_mask.testBit i
            && !(f (AP_InertialSensor.wait_for_sample s f j).2 i)
        then false else s._gyro_healthy i := rfl

/-- C1: `wait_for_sample()` has a bounded maximum wait. For every manager
state and every pattern of backend sample arrivals it releases (1) no later
than the `1/loop_rate + max_jitter` deadline — so a single dead sensor never
makes it block forever — and (2) no later than any tick within the deadline
at which every instance in the active wait-mask has posted a new raw sample;
and on release (3) wait-mask instances still without a sample are marked
unhealthy while (4) instances whose sample arrived keep their health flag,
so the cycle proceeds with whatever instances are ready. -/
theorem wait_for_sample_bounded (s : AP_InertialSensor)
    (new_sample : Nat → Nat → Bool) (max_jitter_usec : Nat) :
    (AP_InertialSensor.wait_for_sample s new_sample max_jitter_usec).2
        ≤ AP_InertialSensor.wait_deadline_usec s max_jitter_usec ∧
    (∀ t0, t0 ≤ AP_InertialSensor.wait_deadline_usec s max_jitter_usec →
      AP_InertialSensor.all_masked_ready s._gyro_wait_mask (new_sample t0) = true →
      (AP_InertialSensor.wait_for_sample s new_sample max_jitter_usec).2 ≤ t0) ∧
    (∀ i, s._gyro_wait_mask.testBit i = true →
      new_sample (AP_InertialSensor.wait_for_sample s new_sample max_jitter_usec).2 i
          = false →
      (AP_InertialSensor.wait_for_sample s new_sample max_jitter_usec).1._gyro_healthy i
        = false) ∧
    (∀ i, new_sample (AP_InertialSensor.wait_for_sample s new_sample max_jitter_usec).2 i
          = true →
      (AP_InertialSensor.wait_for_sample s new_sample max_jitter_usec).1._gyro_healthy i
        = s._gyro_healthy i) := by
  refine ⟨?_, ?_, ?_, ?_⟩
  · show AP_InertialSensor.wait_poll s._gyro_wait_mask new_sample
        (AP_InertialSensor.wait_deadline_usec s max_jitter_usec) 0
      ≤ AP_InertialSensor.wait_deadline_usec s max_jitter_usec
    have h := wait_poll_le s._gyro_wait_mask new_sample
      (AP_InertialSensor.wait_deadline_usec s max_jitter_usec) 0
    omega
  · intro t0 ht0 hready
    show AP_InertialSensor.wait_poll s._gyro_wait_mask new_sample
        (AP_InertialSensor.wait_deadline_usec s max_jitter_usec) 0 ≤ t0
    exact wait_poll_le_ready s._gyro_wait_mask new_sample _ 0 t0 (Nat.zero_le _)
      (by omega) hready
  · intro i htb hf
    rw [wait_for_sample_health, htb, hf]
    rfl
  · intro i hf
    rw [wait_for_sample_health, hf]
    simp

/-- Witness for C1: with wait mask `{0}` and loop rate 400 Hz (deadline 2500
ticks), an arrival pattern where instance 0 posts at tick 2 releases the wait
by tick 2; a permanently dead instance 0 still releases (bounded by the
deadline) and is marked unhealthy. -/
theorem wait_for_sample_bounded_witness :
    (AP_InertialSensor.wait_for_sample AP_InertialSensor.one_imu_state
        (fun t _ => decide (2 ≤ t)) 0).2 ≤ 2 ∧
    (AP_InertialSensor.wait_for_sample AP_InertialSensor.one_imu_state
        (fun _ _ => false) 0).2
      ≤ AP_InertialSensor.wait_deadline_usec AP_InertialSensor.one_imu_state 0 ∧
    (AP_InertialSensor.wait_for_sample AP_InertialSensor.one_imu_state
        (fun _ _ => false) 0).1._gyro_healthy 0 = false := by
  refine ⟨?_, ?_, ?_⟩
  · exact (wait_for_sample_bounded AP_InertialSensor.one_imu_state
      (fun t _ => decide (2 ≤ t)) 0).2.1 2 (by decide) (by decide)
  · exact (wait_for_sample_bounded AP_InertialSensor.one_imu_state
      (fun _ _ => false) 0).1
  · exact (wait_for_sample_bounded AP_InertialSensor.one_imu_state
      (fun _ _ => false) 0).2.2.1 0 (by decide) rfl

/-- Helper: the snapshot fields one cycle publishes — each registered
instance's deltatime is the wait's release tick converted to seconds,
unregistered slots are not drained, `_delta_time` records the same elapsed
time, and the `_loop_delta_t_max` cap is untouched. All four hold by
unfolding `sample_cycle`, `wait_for_sample` and `update`. -/
theorem sample_cycle_fields (s : AP_InertialSensor) (f : Nat → Nat → Bool)
    (j i : Nat) :
    (AP_InertialSensor.sample_cycle s f j)._delta_velocity_dt i
        = (if i < s._accel_count
            then ((AP_InertialSensor.wait_for_sample s f j).2 : Rat) / 1000000
            else s._delta_velocity_dt i) ∧
    (AP_InertialSensor.sample_cycle s f j)._delta_angle_dt i
        = (if i < s._gyro_count
            then ((AP_InertialSensor.wait_for_sample s f j).2 : Rat) / 1000000
            else s._delta_angle_dt i) ∧
    (AP_InertialSensor.sample_cycle s f j)._delta_time
        = ((AP_InertialSensor.wait_for_sample s f j).2 : Rat) / 1000000 ∧
    (AP_InertialSensor.sample_cycle s f j)._loop_delta_t_max
        = s._loop_delta_t_max :=
  ⟨rfl, rfl, rfl, rfl⟩

/-- C4: for every instance count from 1 to `INS_MAX_INSTANCES` and every
pattern of backend sample arrivals, the cycle `wait_for_sample(); update()`
publishes a snapshot whose per-instance delta-velocity and delta-angle times
are within one loop period of `1/loop_rate_hz`. The bound is derived from
the wait barrier itself: the release tick never exceeds the
`1/loop_rate + max_jitter` deadline (`wait_poll_le`), so under the
configuration constraints that the jitter allowance is at most one loop
period and the loop rate divides the microsecond tick rate, the elapsed
time lies in `[0, 2/loop_rate]`. And the value returned by
`get_delta_time()` never exceeds the configured maximum loop delta time
(`_loop_delta_t_max`, via the header's verbatim inline `MIN`). -/
theorem update_publishes_bounded_deltatime (s : AP_InertialSensor)
    (new_sample : Nat → Nat → Bool) (max_jitter_usec : Nat) (n : Nat)
    (hn1 : 1 ≤ n) (hn2 : n ≤ INS_MAX_INSTANCES)
    (hacc : s._accel_count = n) (hgyr : s._gyro_count = n)
    (hpos : 0 < s._loop_rate)
    (hdvd : s._loop_rate ∣ 1000000)
    (hjit : max_jitter_usec ≤ 1000000 / s._loop_rate) :
    (∀ i, i < n →
      |(AP_InertialSensor.sample_cycle s new_sample max_jitter_usec)._delta_velocity_dt i
          - 1 / (s._loop_rate : Rat)| ≤ 1 / (s._loop_rate : Rat) ∧
      |(AP_InertialSensor.sample_cycle s new_sample max_jitter_usec)._delta_angle_dt i
          - 1 / (s._loop_rate : Rat)| ≤ 1 / (s._loop_rate : Rat)) ∧
    AP_InertialSensor.get_delta_time
        (AP_InertialSensor.sample_cycle s new_sample max_jitter_usec)
      ≤ s._loop_delta_t_max := by
  have hrpos : (0 : Rat) < (s._loop_rate : Rat) := by exact_mod_cast hpos
  have hrne : ((s._loop_rate : Rat)) ≠ 0 := ne_of_gt hrpos
  -- the wait releases no later than its deadline...
  have hb : (AP_InertialSensor.wait_for_sample s new_sample max_jitter_usec).2
      ≤ AP_InertialSensor.wait_deadline_usec s max_jitter_usec := by
    show AP_InertialSensor.wait_poll s._gyro_wait_mask new_sample
        (AP_InertialSensor.wait_deadline_usec s max_jitter_usec) 0
      ≤ AP_InertialSensor.wait_deadline_usec s max_jitter_usec
    have h := wait_poll_le s._gyro_wait_mask new_sample
      (AP_InertialSensor.wait_deadline_usec s max_jitter_usec) 0
    omega
  -- ...which the jitter bound keeps within two loop periods of microseconds
  have hb2 : (AP_InertialSensor.wait_for_sample s new_sample max_jitter_usec).2
      ≤ 2 * (1000000 / s._loop_rate) := by
    unfold AP_InertialSensor.wait_deadline_usec at hb
    omega
  have hcast : ((1000000 / s._loop_rate : Nat) : Rat)
      = 1000000 / (s._loop_rate : Rat) :=
    Nat.cast_div hdvd hrne
  have h3 : ((AP_InertialSensor.wait_for_sample s new_sample max_jitter_usec).2 : Rat)
      ≤ 2 * (1000000 / (s._loop_rate : Rat)) := by
    have h : ((AP_InertialSensor.wait_for_sample s new_sample max_jitter_usec).2 : Rat)
        ≤ ((2 * (1000000 / s._loop_rate) : Nat) : Rat) := Nat.cast_le.mpr hb2
    push_cast at h
    rwa [hcast] at h
  -- hence the elapsed time in seconds lies in [0, 2/loop_rate]
  have hub : ((AP_InertialSensor.wait_for_sample s new_sample max_jitter_usec).2 : Rat)
      / 1000000 ≤ 2 / (s._loop_rate : Rat) := by
    rw [div_le_div_iff₀ (by norm_num) hrpos]
    have h4 : (1000000 / (s._loop_rate : Rat)) * (s._loop_rate : Rat) = 1000000 :=
      div_mul_cancel₀ _ hrne
    have h5 := mul_le_mul_of_nonneg_right h3 (le_of_lt hrpos)
    calc ((AP_InertialSensor.wait_for_sample s new_sample max_jitter_usec).2 : Rat)
          * (s._loop_rate : Rat)
        ≤ 2 * (1000000 / (s._loop_rate : Rat)) * (s._loop_rate : Rat) := h5
      _ = 2 * ((1000000 / (s._loop_rate : Rat)) * (s._loop_rate : Rat)) := by ring
      _ = 2 * 1000000 := by rw [h4]
  have hlb : (0 : Rat) ≤
      ((AP_InertialSensor.wait_for_sample s new_sample max_jitter_usec).2 : Rat)
        / 1000000 := by positivity
  have h6 : (2 : Rat) / (s._loop_rate : Rat)
      = 1 / (s._loop_rate : Rat) + 1 / (s._loop_rate : Rat) := by ring
  constructor
  · intro i hi
    have hfields := sample_cycle_fields s new_sample max_jitter_usec i
    constructor
    · rw [hfields.1, if_pos (by rw [hacc]; exact hi), abs_le]
      constructor <;> linarith
    · rw [hfields.2.1, if_pos (by rw [hgyr]; exact hi), abs_le]
      constructor <;> linarith
  · exact min_le_right _ _

/-- Witness for C4: one registered instance at loop rate 400 Hz (deadline
2500 µs with zero jitter allowance), its sample arriving at tick 2. -/
theorem update_publishes_bounded_deltatime_witness :
    |(AP_InertialSensor.sample_cycle AP_InertialSensor.one_imu_state
        (fun t _ => decide (2 ≤ t)) 0)._delta_velocity_dt 0
      - 1 / ((AP_InertialSensor.one_imu_state._loop_rate : Nat) : Rat)|
      ≤ 1 / ((AP_InertialSensor.one_imu_state._loop_rate : Nat) : Rat) ∧
    AP_InertialSensor.get_delta_time
        (AP_InertialSensor.sample_cycle AP_InertialSensor.one_imu_state
          (fun t _ => decide (2 ≤ t)) 0)
      ≤ AP_InertialSensor.one_imu_state._loop_delta_t_max := by
  have h := update_publishes_bounded_deltatime AP_InertialSensor.one_imu_state
    (fun t _ => decide (2 ≤ t)) 0 1
    (le_refl 1) (by decide) rfl rfl (by decide) (by decide) (Nat.zero_le _)
  exact ⟨(h.1 0 (by decide)).1, h.2⟩

/-- Helper: no runtime operation changes the instance counts or the
persistent id tables. -/
theorem runtime_step_preserves (s : AP_InertialSensor)
    (op : AP_InertialSensor.RuntimeOp) :
    (AP_InertialSensor.runtime_step s op)._gyro_count = s._gyro_count ∧
    (AP_InertialSensor.runtime_step s op)._accel_count = s._accel_count ∧
    (AP_InertialSensor.runtime_step s op)._gyro_id = s._gyro_id ∧
    (AP_InertialSensor.runtime_step s op)._accel_id = s._accel_id := by
  cases op with
  | waitCycle f j => exact ⟨rfl, rfl, rfl, rfl⟩
  | doUpdate av aa e => exact ⟨rfl, rfl, rfl, rfl⟩
  | clipSample cl i a =>
      simp only [AP_InertialSensor.runtime_step,
        AP_InertialSensor.calc_vibration_and_clipping]
      split <;> exact ⟨rfl, rfl, rfl, rfl⟩
  | clipRead i => exact ⟨rfl, rfl, rfl, rfl⟩
  | calSave i o c =>
      simp only [AP_InertialSensor.runtime_step,
        AP_InertialSensor._acal_save_calibrations]
      split <;> exact ⟨rfl, rfl, rfl, rfl⟩

/-- C7: after `detect_backends()` completes, for every reachable state and
every sequence of runtime operations, the counts returned by
`get_gyro_count()` / `get_accel_count()` never exceed `INS_MAX_INSTANCES`
(the header's inline `MIN`) and never change — in particular never decrease —
and the persistent instance id tables stay exactly as assigned. -/
theorem runtime_counts_and_ids_stable (s : AP_InertialSensor)
    (ops : List AP_InertialSensor.RuntimeOp) :
    (AP_InertialSensor.runtime_run s ops)._gyro_count = s._gyro_count ∧
    (AP_InertialSensor.runtime_run s ops)._accel_count = s._accel_count ∧
    (AP_InertialSensor.runtime_run s ops)._gyro_id = s._gyro_id ∧
    (AP_InertialSensor.runtime_run s ops)._accel_id = s._accel_id ∧
    AP_InertialSensor.get_gyro_count (AP_InertialSensor.runtime_run s ops)
        ≤ INS_MAX_INSTANCES ∧
    AP_InertialSensor.get_accel_count (AP_InertialSensor.runtime_run s ops)
        ≤ INS_MAX_INSTANCES := by
  have main : ∀ (l : List AP_InertialSensor.RuntimeOp) (st : AP_InertialSensor),
      (AP_InertialSensor.runtime_run st l)._gyro_count = st._gyro_count ∧
      (AP_InertialSensor.runtime_run st l)._accel_count = st._accel_count ∧
      (AP_InertialSensor.runtime_run st l)._gyro_id = st._gyro_id ∧
      (AP_InertialSensor.runtime_run st l)._accel_id = st._accel_id := by
    intro l
    induction l with
    | nil => intro st; exact ⟨rfl, rfl, rfl, rfl⟩
    | cons op rest ih =>
        intro st
        have h1 := runtime_step_preserves st op
        have h2 := ih (AP_InertialSensor.runtime_step st op)
        have hrun : AP_InertialSensor.runtime_run st (op :: rest)
            = AP_InertialSensor.runtime_run (AP_InertialSensor.runtime_step st op)
                rest := rfl
        rw [hrun]
        exact ⟨h2.1.trans h1.1, h2.2.1.trans h1.2.1,
          h2.2.2.1.trans h1.2.2.1, h2.2.2.2.trans h1.2.2.2⟩
  obtain ⟨a, b, c, d⟩ := main ops s
  exact ⟨a, b, c, d, min_le_left _ _, min_le_left _ _⟩
